import Mathlib

/-!
Shallow embedding of the `web/template` crate of this repository
(`src/web/template/src/main.rs` and `src/web/template/src/router.rs`).

Handlers are `async fn`s over extracted request data; here each becomes a
pure Lean function over the data it actually reads (session map, form
payload, pending flash messages, a rendering environment).  Library-provided
operations that are not part of this repository (axum_csrf's
`CsrfToken::verify`, the minijinja renderer) are passed in as function
parameters, so theorems quantify over every possible library behaviour.
-/

namespace Templates

/-! ## Session counter (`handler_session`, router.rs lines 239-244) -/

/-- `const COUNTER_KEY: &str = "counter";` (router.rs line 50). -/
def COUNTER_KEY : String := "counter"

/-- A session is a finite map from string keys to stored values; only
`usize` counters are ever stored by this program, so values are `Nat`. -/
def Session : Type := String → Option Nat

/-- `session.insert(key, v)` stores `v` under `key`. -/
def Session.insert (s : Session) (k : String) (v : Nat) : Session :=
  fun q => if q = k then some v else s q

/-- The session with no stored values (a fresh session). -/
def Session.empty : Session := fun _ => none

/-- `handler_session` (router.rs lines 239-244): reads the `Counter` stored
under `COUNTER_KEY` (`unwrap_or_default()` gives `Counter(0)` when absent),
stores `counter.0 + 1` back, and responds with the pre-increment value. -/
def handler_session (s : Session) : String × Session :=
  let counter : Nat := (s COUNTER_KEY).getD 0
  ("Current count: " ++ toString counter,
   Session.insert s COUNTER_KEY (counter + 1))

/-! ## CSRF check (`csrf_check_key`, router.rs lines 211-221) -/

/-- The form payload deserialized for the POST /csrf handler
(struct `Keys`, router.rs lines 56-59). -/
structure Keys where
  authenticity_token : String

/-- `csrf_check_key` (router.rs lines 211-221).  `CsrfToken::verify` is
axum_csrf library code, so it is a parameter: any function from the
submitted token string to a fallible result. -/
def csrf_check_key (verify : String → Except Unit Unit) (payload : Keys) :
    String :=
  if (verify payload.authenticity_token).isOk = false then
    "Token is invalid"
  else
    "Token is Valid lets do stuff!"

/-- An HTTP response reduced to what these handlers produce: a status code
and a body. -/
structure SimpleResponse where
  status : Nat
  body : String
deriving DecidableEq, Repr

/-! ## Form validation (POST /validation, router.rs lines 123-189) -/

/-- Rust's `str::replace(pattern_char, replacement)`: every occurrence of
the character is replaced by the replacement string. -/
def replaceChar (c : Char) (r : String) (s : String) : String :=
  String.mk (s.data.flatMap (fun a => if a = c then r.data else [a]))

/-- `struct NameInput { #[validate(length(min = 2, message = "Can not be empty"))] name: String }`
(router.rs lines 123-127). -/
structure NameInput where
  name : String
deriving DecidableEq, Repr

/-- The validator-derived `Validate` impl for `NameInput`: the `length`
rule with `min = 2` counts characters; on failure the declared message is
reported for the `name` field.  The validator crate is library code, so
only the rule declared in router.rs line 125 is modelled; the error value
carries the string the library renders for it. -/
def NameInput.validate (i : NameInput) : Except String Unit :=
  if 2 ≤ i.name.length then Except.ok ()
  else Except.error "name: Can not be empty"

/-- `enum ServerError` (router.rs lines 166-173); each variant transparently
displays the wrapped library error, carried here as its rendered string. -/
inductive ServerError where
  | ValidationError (display : String)
  | AxumFormRejection (display : String)
deriving DecidableEq, Repr

/-- `impl IntoResponse for ServerError` (router.rs lines 175-189): both
variants answer `BAD_REQUEST` (400); a validation error is wrapped in
`Input validation error: [...]` with newlines replaced by `", "`; a form
rejection is rendered by its own `to_string()`. -/
def ServerError.into_response : ServerError → SimpleResponse
  | ServerError.ValidationError d =>
      { status := 400,
        body := replaceChar '\n' ", "
          ("Input validation error: [" ++ d ++ "]") }
  | ServerError.AxumFormRejection d =>
      { status := 400, body := d }

/-- `ValidatedForm::from_request` (router.rs lines 148-164): form
extraction first (its rejection becomes `AxumFormRejection`), then
`value.validate()` (its error becomes `ValidationError`).  The framework's
form extraction result is the input. -/
def ValidatedForm.from_request (formResult : Except String NameInput) :
    Except ServerError NameInput :=
  match formResult with
  | Except.error r => Except.error (ServerError.AxumFormRejection r)
  | Except.ok value =>
    match value.validate with
    | Except.error e => Except.error (ServerError.ValidationError e)
    | Except.ok _ => Except.ok value

/-- `post_validation_handler` (router.rs lines 139-143) on a successfully
extracted and validated form: `Html(format!("<h1>Hello, {}!</h1>", input.name))`;
axum's `IntoResponse` for `Html` uses status 200. -/
def post_validation_handler (input : NameInput) : SimpleResponse :=
  { status := 200, body := "<h1>Hello, " ++ input.name ++ "!</h1>" }

/-- The complete POST /validation dispatch: run the extractor, on rejection
turn the `ServerError` into a response, otherwise run the handler. -/
def post_validation_route (formResult : Except String NameInput) :
    SimpleResponse :=
  match ValidatedForm.from_request formResult with
  | Except.error e => e.into_response
  | Except.ok input => post_validation_handler input

/-! ## Flash messages (router.rs lines 223-237) -/

/-- Message levels used by this program; axum_messages renders the level
with lowercase names in its `Display` impl. -/
inductive Level where
  | debug
  | info
deriving DecidableEq, Repr

/-- The string `message.level` displays as. -/
def Level.display : Level → String
  | Level.debug => "debug"
  | Level.info => "info"

/-- The pending flash messages of a session, in insertion order; each
message is its level and its text. -/
abbrev Messages : Type := List (Level × String)

/-- `set_messages_handler` (router.rs lines 223-227): records an info
message "Hello, world!" and a debug message "This is a debug message.",
then responds `Redirect::to("/read-messages")` (the redirect target is
returned). -/
def set_messages_handler (m : Messages) : Messages × String :=
  (m ++ [(Level.info, "Hello, world!"),
         (Level.debug, "This is a debug message.")],
   "/read-messages")

/-- `format!("{}: {}", message.level, message)` (router.rs line 232). -/
def formatMessage (p : Level × String) : String :=
  p.1.display ++ ": " ++ p.2

/-- `Vec::join(", ")` as the Rust standard library defines it. -/
def joinComma : List String → String
  | [] => ""
  | [x] => x
  | x :: y :: rest => x ++ ", " ++ joinComma (y :: rest)

/-- `read_messages_handler` (router.rs lines 229-237): consumes the pending
messages (iterating `Messages` drains them), joins their renderings with
", ", and answers "No messages yet!" when the joined string is empty. -/
def read_messages_handler (m : Messages) : Messages × String :=
  let messages := joinComma (m.map formatMessage)
  ([], if messages = "" then "No messages yet!" else messages)

/-! ## Health check (`healthz`, router.rs lines 246-248) -/

/-- `healthz` (router.rs lines 246-248) returns `StatusCode::OK`; axum's
`IntoResponse` for a bare status code attaches an empty body.  The Rust
function takes no extractor arguments, so the model takes no arguments. -/
def healthz : SimpleResponse :=
  { status := 200, body := "" }

/-! ## Router assembly (`route`, router.rs lines 61-121)

axum's `Router::layer` (and `route_layer`) wraps every route already added
to the router; routes added afterwards are not wrapped.  A tuple of layers
is applied like a `ServiceBuilder`: the first element of the tuple is the
outermost middleware.  Each route entry therefore carries the list of
middleware wrapping it, outermost first. -/

/-- The middleware layers assembled in `route`, each with the configuration
the source gives it. -/
inductive Layer where
  | setRequestId (header : String)
  | traceHttp
  | sessionManager (secure : Bool) (inactivityExpirySecs : Nat)
  | messagesManager
  | csrfLayer
  | clientIpExt
  | timeoutSecs (secs : Nat)
  | propagateRequestId (header : String)
  | trackMetrics
deriving DecidableEq, Repr

/-- One registered route: its path, the handler names per method (or a
nested service), and the middleware wrapping it, outermost first. -/
structure RouteEntry where
  path : String
  getHandler : Option String := none
  postHandler : Option String := none
  isService : Bool := false
  layers : List Layer := []
deriving DecidableEq, Repr

/-- A router is its list of registered routes. -/
abbrev AppRouter : Type := List RouteEntry

/-- `Router::layer`: wrap every route registered so far with the given
layers (outermost first); later-registered routes are unaffected. -/
def layerAll (r : AppRouter) (ls : List Layer) : AppRouter :=
  r.map (fun e => { e with layers := ls ++ e.layers })

/-- `const REQUEST_ID_HEADER: &str = "x-request-id";` (router.rs line 51). -/
def REQUEST_ID_HEADER : String := "x-request-id"

/-- The tuple of layers applied at router.rs lines 89-117, in tuple order
(outermost first): request-id setter with UUID maker, HTTP trace layer,
session manager over a `MemoryStore` with `with_secure(false)` and
`Expiry::OnInactivity(Duration::seconds(10))`, messages manager, CSRF
layer, client-IP extension, 10-second timeout, request-id propagator. -/
def middlewareStack : List Layer :=
  [Layer.setRequestId REQUEST_ID_HEADER,
   Layer.traceHttp,
   Layer.sessionManager false 10,
   Layer.messagesManager,
   Layer.csrfLayer,
   Layer.clientIpExt,
   Layer.timeoutSecs 10,
   Layer.propagateRequestId REQUEST_ID_HEADER]

/-- The nine routes registered at router.rs lines 74-85, before any layer. -/
def initialRoutes : AppRouter :=
  [{ path := "/", getHandler := some "handler_home" },
   { path := "/content", getHandler := some "handler_content" },
   { path := "/about", getHandler := some "handler_about" },
   { path := "/session", getHandler := some "handler_session" },
   { path := "/message", getHandler := some "set_messages_handler" },
   { path := "/read-messages", getHandler := some "read_messages_handler" },
   { path := "/csrf", getHandler := some "csrf_root",
     postHandler := some "csrf_check_key" },
   { path := "/ip", getHandler := some "ip_handler" },
   { path := "/validation", getHandler := some "get_validation_handler",
     postHandler := some "post_validation_handler" }]

/-- `route` (router.rs lines 61-121): the nine routes, then
`.layer(MessagesManagerLayer)`, then `nest_service("/assets", ...)`, then
the tuple of layers, then `.route_layer(track_metrics)`, then the
/healthz route added last.  The `app_state` argument only feeds handler
state; the shape of the router does not depend on it. -/
def route : AppRouter :=
  layerAll
    (layerAll
      (layerAll initialRoutes [Layer.messagesManager]
        ++ [{ path := "/assets", isService := true }])
      middlewareStack)
    [Layer.trackMetrics]
  ++ [{ path := "/healthz", getHandler := some "healthz" }]

/-- Look a path up among the registered routes. -/
def findRoute (r : AppRouter) (p : String) : Option RouteEntry :=
  r.find? (fun e => e.path == p)

/-! ## Server startup (`main` and `start_main_server`, main.rs lines 30-67) -/

/-- The two futures `main` runs with `tokio::join!` (main.rs lines 36-37);
`join!` polls both concurrently within the same task. -/
def mainJoinedServers : List String :=
  ["start_main_server", "start_metrics_server"]

/-- The listener/shutdown wiring of `start_main_server` (main.rs lines
56-66): bind "0.0.0.0:3000" and serve with
`with_graceful_shutdown(helpers::shutdown_signal())`. -/
structure MainServerSetup where
  bindAddr : String
  hasGracefulShutdown : Bool
deriving DecidableEq, Repr

/-- The setup values exactly as written in `start_main_server`. -/
def start_main_server : MainServerSetup :=
  { bindAddr := "0.0.0.0:3000", hasGracefulShutdown := true }

/-- Modelled from the spec: the graceful-shutdown behaviour of
`axum::serve(...).with_graceful_shutdown(...)` and `helpers::shutdown_signal`
(the helpers module is not under src/, and the serve loop is framework
code).  The server keeps running until the signal fires, then drains:
it stops accepting new connections instead of aborting. -/
inductive ServerPhase where
  | running
  | draining
  | aborted
deriving DecidableEq, Repr

/-- Modelled from the spec: one step of the serving loop, driven by whether
the shutdown signal has fired. -/
def serveStep (p : ServerPhase) (signalFired : Bool) : ServerPhase :=
  match p with
  | ServerPhase.running =>
      if signalFired then ServerPhase.draining else ServerPhase.running
  | ServerPhase.draining => ServerPhase.draining
  | ServerPhase.aborted => ServerPhase.aborted

/-- Modelled from the spec: whether a server phase accepts new
connections. -/
def acceptsNew : ServerPhase → Bool
  | ServerPhase.running => true
  | ServerPhase.draining => false
  | ServerPhase.aborted => false

/-! ## Template rendering (handlers at router.rs lines 129-137, 195-209,
250-293; environment built in main.rs lines 42-51) -/

/-- The values the handlers place in their minijinja `context!` maps:
strings and lists of strings. -/
inductive TemplateValue where
  | str (v : String)
  | strList (vs : List String)
deriving DecidableEq, Repr

/-- The minijinja renderer, as the handlers use it: template name and
context map to rendered output.  minijinja is library code, so the
renderer is a parameter. -/
abbrev Renderer : Type := String → List (String × TemplateValue) → String

/-- `handler_home` (router.rs lines 250-263): render "home" with title
"Home" and welcome_text "Hello World!".  The Rust handler extracts only
the application state, never the request, so the model takes only the
renderer. -/
def handler_home (render : Renderer) : String :=
  render "home"
    [("title", TemplateValue.str "Home"),
     ("welcome_text", TemplateValue.str "Hello World!")]

/-- `handler_content` (router.rs lines 265-280): render "content" with
title "Content" and the three fixed example entries. -/
def handler_content (render : Renderer) : String :=
  render "content"
    [("title", TemplateValue.str "Content"),
     ("entries", TemplateValue.strList ["Data 1", "Data 2", "Data 3"])]

/-- `handler_about` (router.rs lines 282-293): render "about" with title
"About" and the fixed about_text. -/
def handler_about (render : Renderer) : String :=
  render "about"
    [("title", TemplateValue.str "About"),
     ("about_text", TemplateValue.str
       "Simple demonstration layout for an axum project with minijinja as templating engine.")]

/-- `get_validation_handler` (router.rs lines 129-137): render
"validation" with an empty context. -/
def get_validation_handler (render : Renderer) : String :=
  render "validation" []

/-- `csrf_root` (router.rs lines 195-209): render "csrf" with title "Csrf"
and the token's authenticity_token string. -/
def csrf_root (render : Renderer) (authenticity_token : String) : String :=
  render "csrf"
    [("title", TemplateValue.str "Csrf"),
     ("authenticity_token", TemplateValue.str authenticity_token)]

/-- `Environment::add_template` keyed by name.  The template sources under
`templates/*.jinja` are not in src/, and only the registered names decide
whether `get_template` succeeds, so the environment is its list of
registered names. -/
def add_template (env : List String) (name : String) : List String :=
  env ++ [name]

/-- The environment built in `start_main_server` (main.rs lines 42-51):
layout, home, content, about, csrf, validation, registered in that order
before the router is built, and never modified afterwards (the state holds
it immutably behind an `Arc`). -/
def startupTemplateEnv : List String :=
  add_template
    (add_template
      (add_template
        (add_template
          (add_template (add_template [] "layout") "home")
          "content")
        "about")
      "csrf")
    "validation"

/-- `Environment::get_template`, reduced to the name lookup that decides
success. -/
def get_template (env : List String) (name : String) : Option String :=
  env.find? (fun n => n == name)

/-- The template name a rendering handler requests, read off by running it
with a renderer that reports the name it was asked for. -/
def templateNameRequested (h : Renderer → String) : String :=
  h (fun n _ => n)

end Templates

namespace Templates

/-- C1: a GET /session request reads the counter (absent value read as 0),
responds with the pre-increment value, stores the successor back under the
same key, and a fresh session reports 0. -/
theorem handler_session_counter (s : Session) :
    (handler_session s).1 =
      "Current count: " ++ toString ((s COUNTER_KEY).getD 0) ∧
    (handler_session s).2 COUNTER_KEY = some ((s COUNTER_KEY).getD 0 + 1) ∧
    (handler_session Session.empty).1 = "Current count: 0" := by
  refine ⟨rfl, ?_, rfl⟩
  simp [handler_session, Session.insert]

/-- C2: the POST /csrf handler answers "Token is invalid" exactly when the
library verification of the submitted field fails, and the fixed success
string otherwise. -/
theorem csrf_check_key_iff (verify : String → Except Unit Unit)
    (payload : Keys) :
    (csrf_check_key verify payload = "Token is invalid" ↔
      (verify payload.authenticity_token).isOk = false) ∧
    (csrf_check_key verify payload = "Token is Valid lets do stuff!" ↔
      (verify payload.authenticity_token).isOk = true) := by
  unfold csrf_check_key
  rcases h : (verify payload.authenticity_token).isOk <;> simp [h]

/-- C3: on POST /validation every failure — a framework form rejection or
a validation error such as a name shorter than 2 characters — produces
status 400 with a body derived from the library error (newlines replaced
by ", " for validation errors); success returns the greeting containing
the submitted name; no status other than 200 or 400 is produced. -/
theorem post_validation_error_handling (f : Except String NameInput) :
    ((post_validation_route f).status = 200 ∨
      (post_validation_route f).status = 400) ∧
    (∀ r, f = Except.error r →
      post_validation_route f = { status := 400, body := r }) ∧
    (∀ v, f = Except.ok v → v.name.length < 2 →
      post_validation_route f =
        { status := 400,
          body := replaceChar '\n' ", "
            ("Input validation error: [name: Can not be empty]") }) ∧
    (∀ v, f = Except.ok v → 2 ≤ v.name.length →
      post_validation_route f =
        { status := 200, body := "<h1>Hello, " ++ v.name ++ "!</h1>" } ∧
      ∃ pre post, (post_validation_route f).body = pre ++ v.name ++ post) := by
  refine ⟨?_, ?_, ?_, ?_⟩
  · cases f with
    | error r => right; rfl
    | ok v =>
      by_cases h : 2 ≤ v.name.length
      · left
        simp [post_validation_route, ValidatedForm.from_request,
          NameInput.validate, h, post_validation_handler]
      · right
        simp [post_validation_route, ValidatedForm.from_request,
          NameInput.validate, h, ServerError.into_response]
  · intro r hr; subst hr; rfl
  · intro v hv hlen; subst hv
    have h : ¬ 2 ≤ v.name.length := Nat.not_le.mpr hlen
    simp [post_validation_route, ValidatedForm.from_request,
      NameInput.validate, h, ServerError.into_response]
  · intro v hv hlen; subst hv
    have hroute : post_validation_route (Except.ok v) =
        { status := 200, body := "<h1>Hello, " ++ v.name ++ "!</h1>" } := by
      simp [post_validation_route, ValidatedForm.from_request,
        NameInput.validate, hlen, post_validation_handler]
    exact ⟨hroute, "<h1>Hello, ", "!</h1>", by rw [hroute]⟩

/-- Concrete instantiation of the POST /validation theorem: the name "Bob"
passes validation and is greeted. -/
theorem post_validation_error_handling_witness :
    post_validation_route (Except.ok { name := "Bob" }) =
      { status := 200, body := "<h1>Hello, Bob!</h1>" } :=
  ((post_validation_error_handling (Except.ok { name := "Bob" })).2.2.2
    { name := "Bob" } rfl (by decide)).1

/-- Joining a nonempty list of strings starts with the first string. -/
theorem joinComma_cons_data (x : String) (xs : List String) :
    ∃ t, (joinComma (x :: xs)).data = x.data ++ t := by
  cases xs with
  | nil => exact ⟨[], by simp [joinComma]⟩
  | cons y rest =>
    exact ⟨(", " ++ joinComma (y :: rest)).data,
      by simp [joinComma, String.data_append]⟩

/-- Rendering a nonempty message list yields a string that starts with the
first message's level name, hence is neither empty nor the fixed
"No messages yet!" text, whose first character differs. -/
theorem read_messages_cons (l : Level) (msg : String) (rest : Messages) :
    (read_messages_handler ((l, msg) :: rest)).2 =
      joinComma (((l, msg) :: rest).map formatMessage) ∧
    (read_messages_handler ((l, msg) :: rest)).2 ≠ "No messages yet!" := by
  obtain ⟨t, ht⟩ :=
    joinComma_cons_data (formatMessage (l, msg)) (rest.map formatMessage)
  have hfm : (formatMessage (l, msg)).data =
      (Level.display l).data ++ (": " ++ msg).data := by
    simp [formatMessage, String.data_append]
  rw [hfm] at ht
  have hhead : ∃ c cs t2,
      (joinComma (((l, msg) :: rest).map formatMessage)).data =
        c :: cs ++ t2 ∧ c ≠ 'N' := by
    cases l with
    | debug =>
      refine ⟨'d', "ebug".data ++ (": " ++ msg).data, t, ?_, by decide⟩
      simpa [Level.display] using ht
    | info =>
      refine ⟨'i', "nfo".data ++ (": " ++ msg).data, t, ?_, by decide⟩
      simpa [Level.display] using ht
  obtain ⟨c, cs, t2, hdata, hc⟩ := hhead
  have hne_empty : joinComma (((l, msg) :: rest).map formatMessage) ≠ "" := by
    intro he
    have := congrArg String.data he
    rw [hdata] at this
    simp at this
  have hbody : (read_messages_handler ((l, msg) :: rest)).2 =
      joinComma (((l, msg) :: rest).map formatMessage) := by
    unfold read_messages_handler
    exact if_neg hne_empty
  refine ⟨hbody, ?_⟩
  rw [hbody]
  intro he
  have := congrArg String.data he
  rw [hdata] at this
  have hNo : ("No messages yet!").data = 'N' :: "o messages yet!".data := rfl
  rw [hNo] at this
  exact hc (List.cons.inj this).1

/-- C6: GET /message appends one info message "Hello, world!" and one debug
message, then redirects to /read-messages; GET /read-messages drains the
pending messages and returns them joined by ", " as "level: message", with
the exact body "No messages yet!" precisely when none were pending. -/
theorem flash_messages_behavior (m : Messages) :
    (set_messages_handler m).2 = "/read-messages" ∧
    (set_messages_handler m).1 =
      m ++ [(Level.info, "Hello, world!"),
            (Level.debug, "This is a debug message.")] ∧
    (read_messages_handler m).1 = [] ∧
    ((read_messages_handler m).2 = "No messages yet!" ↔ m = []) ∧
    (m ≠ [] →
      (read_messages_handler m).2 = joinComma (m.map formatMessage)) := by
  refine ⟨rfl, rfl, rfl, ?_, ?_⟩
  · cases m with
    | nil => exact ⟨fun _ => rfl, fun _ => rfl⟩
    | cons p rest =>
      refine ⟨fun hb => ?_, fun hm => by cases hm⟩
      exact absurd hb (read_messages_cons p.1 p.2 rest).2
  · intro hm
    cases m with
    | nil => exact absurd rfl hm
    | cons p rest => exact (read_messages_cons p.1 p.2 rest).1

/-- Concrete instantiation of the flash-messages theorem: with one pending
info message the body is its rendering, not "No messages yet!". -/
theorem flash_messages_behavior_witness :
    (read_messages_handler [(Level.info, "Hello, world!")]).2 =
      joinComma ([(Level.info, "Hello, world!")].map formatMessage) :=
  (flash_messages_behavior [(Level.info, "Hello, world!")]).2.2.2.2
    (by decide)

/-- C9: GET /healthz answers 200 OK with an empty body; the handler takes
no request data or state at all. -/
theorem healthz_ok :
    healthz.status = 200 ∧ healthz.body = "" := by
  exact ⟨rfl, rfl⟩

/-- C4 fails as stated: /healthz is a routed path, yet — being registered
after every `.layer` call — it carries none of the middleware stack, not
even the session manager that wraps every other route. -/
theorem route_healthz_counterexample :
    findRoute route "/healthz" =
      some { path := "/healthz", getHandler := some "healthz",
             layers := [] } ∧
    Layer.sessionManager false 10 ∈ middlewareStack ∧
    Layer.sessionManager false 10 ∉
      (findRoute route "/healthz").elim [] RouteEntry.layers := by
  decide

/-- C4 amended: every route registered before the layer stack — that is,
every route except /healthz — is wrapped by the fixed middleware sequence
(request-id setter, trace, session manager with in-memory store,
non-secure cookies and 10-second inactivity expiry, messages manager,
CSRF, client IP, 10-second timeout, request-id propagator), contiguously
and in that order, with the metrics tracker outermost; the router shape is
a constant of the program. -/
theorem route_middleware_stack (e : RouteEntry) (he : e ∈ route)
    (hp : e.path ≠ "/healthz") :
    middlewareStack <:+: e.layers ∧
    e.layers.head? = some Layer.trackMetrics := by
  have h : ∀ x ∈ route, x.path = "/healthz" ∨
      (middlewareStack <:+: x.layers ∧
        x.layers.head? = some Layer.trackMetrics) := by decide
  exact (h e he).resolve_left hp

/-- Concrete instantiation of the amended middleware theorem at the root
route. -/
theorem route_middleware_stack_witness :
    middlewareStack <:+:
      ({ path := "/", getHandler := some "handler_home",
         layers := [Layer.trackMetrics] ++ middlewareStack ++
           [Layer.messagesManager] } : RouteEntry).layers ∧
    ({ path := "/", getHandler := some "handler_home",
       layers := [Layer.trackMetrics] ++ middlewareStack ++
         [Layer.messagesManager] } : RouteEntry).layers.head? =
      some Layer.trackMetrics :=
  route_middleware_stack _ (by decide) (by decide)

/-- C5: each page handler renders its fixed template with its fixed
context map; the handlers read nothing from the request (they extract only
the shared state), so for a given renderer the output per path is one
fixed string. -/
theorem handlers_fixed_context (render : Renderer) :
    handler_home render = render "home"
      [("title", TemplateValue.str "Home"),
       ("welcome_text", TemplateValue.str "Hello World!")] ∧
    handler_content render = render "content"
      [("title", TemplateValue.str "Content"),
       ("entries", TemplateValue.strList ["Data 1", "Data 2", "Data 3"])] ∧
    handler_about render = render "about"
      [("title", TemplateValue.str "About"),
       ("about_text", TemplateValue.str
         "Simple demonstration layout for an axum project with minijinja as templating engine.")] :=
  ⟨rfl, rfl, rfl⟩

/-- C7: startup binds "0.0.0.0:3000", serves with the framework's graceful
shutdown, keeps serving while the signal has not fired, and on the signal
drains — no longer accepting new connections — rather than aborting. -/
theorem main_server_graceful :
    start_main_server.bindAddr = "0.0.0.0:3000" ∧
    start_main_server.hasGracefulShutdown = true ∧
    serveStep ServerPhase.running false = ServerPhase.running ∧
    serveStep ServerPhase.running true = ServerPhase.draining ∧
    acceptsNew ServerPhase.running = true ∧
    acceptsNew ServerPhase.draining = false ∧
    (∀ p b, (serveStep p b = ServerPhase.aborted) ↔
      (p = ServerPhase.aborted)) := by
  refine ⟨rfl, rfl, rfl, rfl, rfl, rfl, ?_⟩
  intro p b
  cases p <;> cases b <;> decide

/-- C8: the metrics server future is joined with the main server future in
the one `tokio::join!` call, every route registered before the
`route_layer(track_metrics)` call is wrapped by the metrics tracker, and
the /healthz route, added after it, is not. -/
theorem metrics_tracking (e : RouteEntry) (he : e ∈ route) :
    "start_metrics_server" ∈ mainJoinedServers ∧
    "start_main_server" ∈ mainJoinedServers ∧
    (e.path ≠ "/healthz" → Layer.trackMetrics ∈ e.layers) ∧
    (e.path = "/healthz" → Layer.trackMetrics ∉ e.layers) := by
  have h : ∀ x ∈ route,
      (x.path ≠ "/healthz" → Layer.trackMetrics ∈ x.layers) ∧
      (x.path = "/healthz" → Layer.trackMetrics ∉ x.layers) := by decide
  exact ⟨by decide, by decide, (h e he).1, (h e he).2⟩

/-- Concrete instantiation of the metrics theorem at the /healthz entry:
it is not wrapped by the metrics tracker. -/
theorem metrics_tracking_witness :
    Layer.trackMetrics ∉
      ({ path := "/healthz", getHandler := some "healthz" } :
        RouteEntry).layers :=
  (metrics_tracking
    { path := "/healthz", getHandler := some "healthz" }
    (by decide)).2.2.2 rfl

/-- C10: every template name a handler requests is registered in the
environment built at startup (before the router is handed the state), so
each `get_template(...).unwrap()` finds its template; the environment is a
constant fixed at startup. -/
theorem templates_registered :
    (get_template startupTemplateEnv
      (templateNameRequested handler_home)).isSome = true ∧
    (get_template startupTemplateEnv
      (templateNameRequested handler_content)).isSome = true ∧
    (get_template startupTemplateEnv
      (templateNameRequested handler_about)).isSome = true ∧
    (get_template startupTemplateEnv
      (templateNameRequested get_validation_handler)).isSome = true ∧
    (get_template startupTemplateEnv
      (templateNameRequested (fun r => csrf_root r "t"))).isSome = true := by
  decide

end Templates
